import Mathlib

/-!
# Verification of the EnergyVisualization engine

A shallow embedding of the real-time visualization subsystem
(`EnergyVisualization.js`): the parameter mapper, the session state built in
the mount effect (particle buffer, orb, light, camera/viewport), the per-tick
`animate` body, the `handleResize` handler, the effect-cleanup `dispose`
sequence, and the `requestAnimationFrame`-driven scheduling loop.

Numbers are idealized as exact rationals (`ℚ`); the trigonometric library
function `Math.sin` is an explicit parameter `sinq : ℚ → ℚ` of every
time-driven update, since no property here depends on particular values of
sine, only on how the code combines it with state.
-/

/-- The visual parameter set: `{ color, intensity }` entries of the
`energyColors` object in the source. -/
structure EnergyParams where
  color : ℕ
  intensity : ℚ
deriving DecidableEq, Repr

/-- The `medium` preset of the `energyColors` object:
`{ color: 0x4ecdc4, intensity: 1.5 }`. -/
def mediumPreset : EnergyParams := { color := 0x4ecdc4, intensity := 1.5 }

/-- Result of the JS property access `energyColors[energyLevel]`: one of the
three own data properties (a parameter-set object), a truthy member
inherited from `Object.prototype` (a function or object, not a parameter
set), or `undefined`. -/
inductive LookupResult where
  /-- An own data property of the object literal: a parameter-set object. -/
  | preset (p : EnergyParams)
  /-- A truthy function/object inherited from `Object.prototype`. -/
  | protoMember
  /-- `undefined`: the key is found nowhere on the prototype chain. -/
  | undefinedVal
deriving DecidableEq, Repr

/-- The property names a plain object literal inherits from
`Object.prototype` in a browser; looking any of them up yields a truthy
function or object. -/
def protoProps : List String :=
  ["constructor", "hasOwnProperty", "isPrototypeOf", "propertyIsEnumerable",
   "toLocaleString", "toString", "valueOf", "__defineGetter__",
   "__defineSetter__", "__lookupGetter__", "__lookupSetter__", "__proto__"]

/-- The lookup `energyColors[energyLevel]` on the object literal
`{ high: …, medium: …, low: … }`: the three own properties first, then the
prototype chain (`Object.prototype`), then `undefined`. -/
def energyColors (energyLevel : String) : LookupResult :=
  if energyLevel = "high" then .preset { color := 0xff6b6b, intensity := 2 }
  else if energyLevel = "medium" then .preset mediumPreset
  else if energyLevel = "low" then .preset { color := 0x95a5a6, intensity := 1 }
  else if energyLevel ∈ protoProps then .protoMember
  else .undefinedVal

/-- JS truthiness of a lookup result: only `undefined` is falsy here (the
preset objects and the inherited members are all objects/functions). -/
def LookupResult.truthy : LookupResult → Bool
  | .undefinedVal => false
  | _ => true

/-- `const currentEnergy = energyColors[energyLevel] || energyColors.medium;`
— the `||` falls back to the medium preset only when the lookup is falsy,
i.e. `undefined`; a truthy inherited member passes through. -/
def currentEnergyResult (energyLevel : String) : LookupResult :=
  if (energyColors energyLevel).truthy then energyColors energyLevel
  else .preset mediumPreset

/-- The parameter set the session construction reads off `currentEnergy`.
When the lookup produced an inherited `Object.prototype` member, the
program's `currentEnergy` is that function/object and reading `.color` and
`.intensity` off it yields `undefined`; this degenerate parameter set is
represented as `{ color := 0, intensity := 0 }` (no claim below depends on
the parameter values of a session created with such a level). -/
def currentEnergy (energyLevel : String) : EnergyParams :=
  match currentEnergyResult energyLevel with
  | .preset p => p
  | _ => { color := 0, intensity := 0 }

/-- `const particlesCount = 1000;` -/
def particlesCount : ℕ := 1000

/-- The whole state owned by one mounted session: the particle buffer
(`posArray`, 3 floats per particle), the mesh/orb transforms, the light,
the camera/viewport, the DOM attachment flags, the animation-frame
bookkeeping, and the disposed-flags of each graphics resource. -/
structure SessionState where
  /-- `currentEnergy`, fixed at construction. -/
  params : EnergyParams
  /-- `particlesGeometry.attributes.position.array` (`posArray`). -/
  buffer : List ℚ
  /-- `particlesMesh.rotation.x`. -/
  particlesRotX : ℚ
  /-- `particlesMesh.rotation.y`. -/
  particlesRotY : ℚ
  /-- `orb.rotation.x`. -/
  orbRotX : ℚ
  /-- `orb.rotation.y`. -/
  orbRotY : ℚ
  /-- `orb.scale` (uniform, via `setScalar`). -/
  orbScale : ℚ
  /-- `light.intensity`. -/
  lightIntensity : ℚ
  /-- `camera.aspect`. -/
  aspect : ℚ
  /-- The aspect baked into the projection matrix by
  `camera.updateProjectionMatrix()`. -/
  projectionAspect : ℚ
  /-- Renderer surface width (`renderer.setSize`). -/
  surfaceW : ℚ
  /-- Renderer surface height (`renderer.setSize`). -/
  surfaceH : ℚ
  /-- `mountRef.current` is non-null. -/
  mountPresent : Bool
  /-- `renderer.domElement` is currently a child of the mount node. -/
  childAttached : Bool
  /-- The window `resize` listener is registered. -/
  listenerAttached : Bool
  /-- `animationIdRef.current` (`null` or the last id handed out by
  `requestAnimationFrame`; note `cancelAnimationFrame` does not null it). -/
  animIdRef : Option ℕ
  /-- A scheduled animation-frame callback is outstanding at the host. -/
  pendingTick : Bool
  /-- Number of `animate` invocations so far (used to mint frame ids). -/
  frames : ℕ
  /-- `particlesGeometry.dispose()` has run. -/
  geometryDisposed : Bool
  /-- `particlesMaterial.dispose()` has run. -/
  materialDisposed : Bool
  /-- `orbGeometry.dispose()` has run. -/
  orbGeometryDisposed : Bool
  /-- `orbMaterial.dispose()` has run. -/
  orbMaterialDisposed : Bool
  /-- `renderer.dispose()` has run. -/
  rendererDisposed : Bool
deriving Repr

/-- One iteration of the per-particle loop body:
`const i3 = i * 3; positions[i3 + 1] += Math.sin(time + positions[i3]) * 0.001;` -/
def updateStep (sinq : ℚ → ℚ) (t : ℚ) (ps : List ℚ) (i : ℕ) : List ℚ :=
  let i3 := i * 3
  ps.set (i3 + 1) (ps.getD (i3 + 1) 0 + sinq (t + ps.getD i3 0) * 0.001)

/-- The `for (let i = 0; i < particlesCount; i++)` loop over the position
buffer in `animate`. -/
def updateParticles (sinq : ℚ → ℚ) (t : ℚ) (ps : List ℚ) : List ℚ :=
  (List.range particlesCount).foldl (updateStep sinq t) ps

/-- The body of `animate` for one tick at elapsed time `t`.  Mirrors the
source order: `requestAnimationFrame` is called FIRST (scheduling the next
tick and storing its id), then the clock is sampled and the scene is
updated and rendered. -/
def tick (sinq : ℚ → ℚ) (t : ℚ) (s : SessionState) : SessionState :=
  -- animationIdRef.current = requestAnimationFrame(animate);
  let s := { s with animIdRef := some (s.frames + 1), pendingTick := true,
                    frames := s.frames + 1 }
  -- particlesMesh.rotation.y = time * 0.2; particlesMesh.rotation.x = time * 0.1;
  let s := { s with particlesRotY := t * 0.2, particlesRotX := t * 0.1 }
  -- orb.rotation.x = time * 0.5; orb.rotation.y = time * 0.3;
  -- orb.scale.setScalar(1 + Math.sin(time) * 0.2);
  let s := { s with orbRotX := t * 0.5, orbRotY := t * 0.3,
                    orbScale := 1 + sinq t * 0.2 }
  -- per-particle position loop
  let s := { s with buffer := updateParticles sinq t s.buffer }
  -- light.intensity = currentEnergy.intensity + Math.sin(time * 2) * 0.5;
  { s with lightIntensity := s.params.intensity + sinq (t * 2) * 0.5 }

/-- Run `animate` at each elapsed time of `ts`, in order. -/
def renderSeq (sinq : ℚ → ℚ) (ts : List ℚ) (s : SessionState) : SessionState :=
  ts.foldl (fun s t => tick sinq t s) s

/-- Session construction as performed by the mount effect (before the first
`animate()` call): scene, camera sized to the mount, renderer attached to
the mount, `posArray` filled from `particlesCount * 3` draws of
`(Math.random() - 0.5) * 10`, orb, and light at `currentEnergy.intensity`.
The host's random stream is the explicit argument `rand`. -/
def create (energyLevel : String) (rand : ℕ → ℚ) (w h : ℚ) : SessionState :=
  { params := currentEnergy energyLevel
    buffer := (List.range (particlesCount * 3)).map (fun i => (rand i - 0.5) * 10)
    particlesRotX := 0
    particlesRotY := 0
    orbRotX := 0
    orbRotY := 0
    orbScale := 1
    lightIntensity := (currentEnergy energyLevel).intensity
    aspect := w / h
    projectionAspect := w / h
    surfaceW := w
    surfaceH := h
    mountPresent := true
    childAttached := true
    listenerAttached := true
    animIdRef := none
    pendingTick := false
    frames := 0
    geometryDisposed := false
    materialDisposed := false
    orbGeometryDisposed := false
    orbMaterialDisposed := false
    rendererDisposed := false }

/-- The `handleResize` handler, with the mount's current client size `w × h`:
guard `if (!mountRef.current) return;`, then `camera.aspect = w / h`,
`camera.updateProjectionMatrix()`, `renderer.setSize(w, h)`. -/
def resize (w h : ℚ) (s : SessionState) : SessionState :=
  if s.mountPresent then
    { s with aspect := w / h, projectionAspect := w / h,
             surfaceW := w, surfaceH := h }
  else s

/-- The DOM error raised by `Node.removeChild` when the argument is not a
child of the node. -/
inductive DomError where
  | notFound
deriving DecidableEq, Repr

/-- The observable steps of the cleanup function, in the order the source
performs them. -/
inductive DisposeEvent where
  | removeListener
  | cancelTick
  | removeChildEvt
  | disposeParticlesGeometry
  | disposeParticlesMaterial
  | disposeOrbGeometry
  | disposeOrbMaterial
  | disposeRenderer
deriving DecidableEq, Repr

/-- The five `.dispose()` calls that release graphics resources
(geometries, materials, renderer surface). -/
def DisposeEvent.isRelease : DisposeEvent → Bool
  | .disposeParticlesGeometry => true
  | .disposeParticlesMaterial => true
  | .disposeOrbGeometry => true
  | .disposeOrbMaterial => true
  | .disposeRenderer => true
  | _ => false

/-- Outcome of one execution of the cleanup function: the state after the
mutations that ran, the error (if a step threw), and the trace of completed
steps. -/
structure DisposeResult where
  state : SessionState
  error : Option DomError
  trace : List DisposeEvent
deriving Repr

/-- Tail of the cleanup after the `removeChild` block: the five resource
`.dispose()` calls. -/
def finishDispose (s : SessionState) (tr : List DisposeEvent) : DisposeResult :=
  { state := { s with geometryDisposed := true, materialDisposed := true,
                      orbGeometryDisposed := true, orbMaterialDisposed := true,
                      rendererDisposed := true }
    error := none
    trace := tr ++ [DisposeEvent.disposeParticlesGeometry,
                    DisposeEvent.disposeParticlesMaterial,
                    DisposeEvent.disposeOrbGeometry,
                    DisposeEvent.disposeOrbMaterial,
                    DisposeEvent.disposeRenderer] }

/-- The effect-cleanup function, step by step in source order:
`removeEventListener`; `if (animationIdRef.current) cancelAnimationFrame(…)`;
`if (mountRef.current && renderer.domElement) mountRef.current.removeChild(…)`
— which throws `NotFoundError` when the canvas is no longer a child of the
mount; then the five resource `.dispose()` calls.  A throw aborts the
remaining steps, as in JS. -/
def dispose (s : SessionState) : DisposeResult :=
  -- window.removeEventListener('resize', handleResize);
  let s1 := { s with listenerAttached := false }
  let tr1 := [DisposeEvent.removeListener]
  -- if (animationIdRef.current) cancelAnimationFrame(animationIdRef.current);
  let s2 := if s1.animIdRef.isSome then { s1 with pendingTick := false } else s1
  let tr2 := if s1.animIdRef.isSome then tr1 ++ [DisposeEvent.cancelTick] else tr1
  -- if (mountRef.current && renderer.domElement) mountRef.current.removeChild(renderer.domElement);
  if s2.mountPresent then
    if s2.childAttached then
      finishDispose { s2 with childAttached := false }
        (tr2 ++ [DisposeEvent.removeChildEvt])
    else
      -- removeChild throws: the canvas is not a child of the mount node.
      { state := s2, error := some DomError.notFound, trace := tr2 }
  else
    finishDispose s2 tr2

/-!
## The scheduling loop

`animate` reschedules itself through `requestAnimationFrame` before doing any
work.  To study what a failure during a tick's render work does to the loop,
we track only the scheduling-relevant part of the state, with an injected
failure predicate `fails : ℕ → Bool` on 1-based tick numbers (the render work
of a failing tick throws; the host reports the uncaught exception). -/

/-- Scheduling-relevant state of the animation loop. -/
structure SchedState where
  /-- An animation-frame callback is registered with the host. -/
  pending : Bool
  /-- Ticks attempted so far (invocations of `animate` that began executing). -/
  attempts : ℕ
  /-- Failures surfaced so far (uncaught exceptions reported by the host). -/
  errors : ℕ
deriving DecidableEq, Repr

/-- One invocation of `animate` under failure injection `fails`: the first
statement registers the next tick (`requestAnimationFrame`), then the render
work of this tick runs and, if it throws, the exception surfaces — but the
next tick is already scheduled either way. -/
def animateBody (fails : ℕ → Bool) (s : SchedState) : SchedState :=
  let n := s.attempts + 1
  let s' : SchedState := { pending := true, attempts := n, errors := s.errors }
  if fails n then { s' with errors := s'.errors + 1 } else s'

/-- One host scheduling round: if a callback is outstanding, the host
consumes the registration and invokes `animate`. -/
def hostStep (fails : ℕ → Bool) (s : SchedState) : SchedState :=
  if s.pending then animateBody fails { s with pending := false } else s

/-- `n` host scheduling rounds. -/
def runHost (fails : ℕ → Bool) : ℕ → SchedState → SchedState
  | 0, s => s
  | n + 1, s => runHost fails n (hostStep fails s)

/-- The loop as started by the mount effect: the direct `animate()` call
(tick 1), from the idle state. -/
def startLoop (fails : ℕ → Bool) : SchedState :=
  animateBody fails { pending := false, attempts := 0, errors := 0 }

/-!
## Shared concrete instances and helper lemmas
-/

/-- A concrete freshly created session, used to instantiate theorems with
hypotheses on concrete inputs. -/
def demoSession : SessionState := create "medium" (fun _ => 0) 800 600

/-- The same session with a non-buffer field changed, for determinism
instantiations. -/
def demoSessionAlt : SessionState := { demoSession with orbScale := 5 }

/-- The buffer field of `tick` is exactly the particle-loop update of the
previous buffer. -/
theorem tick_buffer (sinq : ℚ → ℚ) (t : ℚ) (s : SessionState) :
    (tick sinq t s).buffer = updateParticles sinq t s.buffer := by
  simp only [tick]

/-- Folding the particle-loop body over any index list preserves the buffer
length. -/
theorem foldl_updateStep_length (sinq : ℚ → ℚ) (t : ℚ) (l : List ℕ)
    (ps : List ℚ) : (l.foldl (updateStep sinq t) ps).length = ps.length := by
  induction l generalizing ps with
  | nil => rfl
  | cons i l ih => rw [List.foldl_cons, ih]; simp [updateStep]

/-- Folding the particle-loop body over any index list leaves every position
whose index is not ≡ 1 (mod 3) unchanged. -/
theorem foldl_updateStep_getElem_ne (sinq : ℚ → ℚ) (t : ℚ) (l : List ℕ)
    (ps : List ℚ) (j : ℕ) (hj : j % 3 ≠ 1) :
    (l.foldl (updateStep sinq t) ps)[j]? = ps[j]? := by
  induction l generalizing ps with
  | nil => rfl
  | cons i l ih =>
      rw [List.foldl_cons, ih]
      unfold updateStep
      exact List.getElem?_set_ne (by omega)

/-- A render sequence never changes the buffer length. -/
theorem renderSeq_buffer_length (sinq : ℚ → ℚ) (ts : List ℚ)
    (s : SessionState) :
    (renderSeq sinq ts s).buffer.length = s.buffer.length := by
  induction ts generalizing s with
  | nil => rfl
  | cons t ts ih =>
      have h1 : renderSeq sinq (t :: ts) s = renderSeq sinq ts (tick sinq t s) := by
        simp only [renderSeq, List.foldl_cons]
      rw [h1, ih, tick_buffer]
      exact foldl_updateStep_length ..

/-!
## Claims
-/

/-- Counterexample to Claim C6 as stated: `"toString"` is not in the
accepted set `{high, medium, low}`, yet `energyColors["toString"]` finds the
truthy `Object.prototype.toString` on the prototype chain, the `||` fallback
never fires, and the mapping does not return the medium preset. -/
theorem currentEnergy_proto_key_cex :
    ("toString" ≠ "high" ∧ "toString" ≠ "medium" ∧ "toString" ≠ "low") ∧
    currentEnergyResult "toString" = LookupResult.protoMember ∧
    currentEnergyResult "toString" ≠ LookupResult.preset mediumPreset := by
  decide

/-- Claim C6 (amended): for every input energy level outside the accepted
set `{high, medium, low}` that is also not one of the property names
inherited from `Object.prototype`, the lookup is `undefined`, the `||`
fires, and the mapping returns the documented default — the medium preset,
color `0x4ecdc4`, intensity `1.5` — without raising (for an inherited name
the truthy inherited member passes through instead). -/
theorem currentEnergy_unrecognized_default (l : String)
    (h1 : l ≠ "high") (h2 : l ≠ "medium") (h3 : l ≠ "low")
    (h4 : l ∉ protoProps) :
    currentEnergyResult l = LookupResult.preset mediumPreset ∧
    mediumPreset = { color := 0x4ecdc4, intensity := 1.5 } := by
  refine ⟨?_, rfl⟩
  simp [currentEnergyResult, energyColors, LookupResult.truthy, h1, h2, h3, h4]

/-- Witness for the amended C6 at the concrete unrecognized level
`"turbo"`. -/
theorem currentEnergy_unrecognized_default_witness :
    currentEnergyResult "turbo" = LookupResult.preset mediumPreset ∧
    mediumPreset = { color := 0x4ecdc4, intensity := 1.5 } :=
  currentEnergy_unrecognized_default "turbo" (by decide) (by decide) (by decide)
    (by decide)

/-- Claim C7: after the tick at elapsed time `t`, the orb's rotation angles
about its two animated axes are the linear functions `0.5 * t` and
`0.3 * t`, and its uniform scale is `1 + sin t * 0.2` (amplitude `0.2`),
for every session state. -/
theorem tick_orb_update (sinq : ℚ → ℚ) (t : ℚ) (s : SessionState) :
    (tick sinq t s).orbRotX = 0.5 * t ∧
    (tick sinq t s).orbRotY = 0.3 * t ∧
    (tick sinq t s).orbScale = 1 + sinq t * 0.2 := by
  refine ⟨?_, ?_, ?_⟩ <;> simp only [tick] <;> ring

/-- Claim C8: after the tick at elapsed time `t`, the point light's
intensity is `baseIntensity + sin (t * 2) * 0.5`, where `baseIntensity` is
the parameter set's intensity field — a pure function of `t` and that
field; the parameter set itself is untouched by the tick. -/
theorem tick_light_pulse (sinq : ℚ → ℚ) (t : ℚ) (s : SessionState) :
    (tick sinq t s).lightIntensity = s.params.intensity + sinq (t * 2) * 0.5 ∧
    (tick sinq t s).params = s.params := by
  exact ⟨by simp only [tick], by simp only [tick]⟩

/-- Claim C9: viewport updates are last-write-wins — two successive
`handleResize` executions leave exactly the state of the second alone:
aspect ratio, projection, and surface dimensions all reflect only the
latest dimensions. -/
theorem resize_last_write_wins (w₁ h₁ w₂ h₂ : ℚ) (s : SessionState) :
    resize w₂ h₂ (resize w₁ h₁ s) = resize w₂ h₂ s := by
  by_cases h : s.mountPresent = true <;>
    simp [resize, h]

/-- Claim C4: for every created session and every sequence of render calls,
the particle buffer keeps its fixed size — `particlesCount * 3 = 3000`
stored floats for `particlesCount = 1000` particles — from construction
through every tick: the per-tick update only writes existing slots and
never resizes or replaces the buffer. -/
theorem session_buffer_length_constant (sinq : ℚ → ℚ) (level : String)
    (rand : ℕ → ℚ) (w h : ℚ) (ts : List ℚ) :
    (renderSeq sinq ts (create level rand w h)).buffer.length
      = particlesCount * 3 ∧
    particlesCount = 1000 := by
  refine ⟨?_, rfl⟩
  rw [renderSeq_buffer_length]
  simp [create]

/-- Claim C5: the buffer evolution is deterministic and depends only on the
initial buffer contents and the elapsed-time sequence: two sessions whose
buffers agree — whatever their other state — have equal buffers after
rendering the same elapsed-time sequence with the same sine function. -/
theorem renderSeq_buffer_deterministic (sinq : ℚ → ℚ) (ts : List ℚ)
    (s₁ s₂ : SessionState) (h : s₁.buffer = s₂.buffer) :
    (renderSeq sinq ts s₁).buffer = (renderSeq sinq ts s₂).buffer := by
  induction ts generalizing s₁ s₂ with
  | nil => exact h
  | cons t ts ih =>
      have h1 : ∀ s : SessionState,
          renderSeq sinq (t :: ts) s = renderSeq sinq ts (tick sinq t s) := by
        intro s; simp only [renderSeq, List.foldl_cons]
      rw [h1, h1]
      exact ih _ _ (by rw [tick_buffer, tick_buffer, h])

/-- Witness for C5: two concrete sessions differing in the orb scale but
sharing a buffer end with equal buffers after the tick sequence `[0, 1]`. -/
theorem renderSeq_buffer_deterministic_witness :
    (renderSeq (fun x => x) [0, 1] demoSession).buffer
      = (renderSeq (fun x => x) [0, 1] demoSessionAlt).buffer :=
  renderSeq_buffer_deterministic (fun x => x) [0, 1] demoSession demoSessionAlt
    (by simp only [demoSessionAlt])

/-- Claim C10: a tick writes only particle y-coordinates in the buffer —
every slot whose index is not ≡ 1 (mod 3), i.e. every x- and z-coordinate,
is unchanged — while the whole-field rotation goes to the mesh transform
(`particlesMesh.rotation`), never into the buffer. -/
theorem tick_writes_only_y (sinq : ℚ → ℚ) (t : ℚ) (s : SessionState) (j : ℕ)
    (hj : j % 3 ≠ 1) :
    (tick sinq t s).buffer[j]? = s.buffer[j]? ∧
    (tick sinq t s).particlesRotY = t * 0.2 ∧
    (tick sinq t s).particlesRotX = t * 0.1 := by
  refine ⟨?_, by simp only [tick], by simp only [tick]⟩
  rw [tick_buffer]
  exact foldl_updateStep_getElem_ne sinq t _ _ j hj

/-- Witness for C10 at the concrete session `demoSession`, tick time `1`,
and x-coordinate slot `j = 0`. -/
theorem tick_writes_only_y_witness :
    (tick (fun x => x) 1 demoSession).buffer[0]? = demoSession.buffer[0]? ∧
    (tick (fun x => x) 1 demoSession).particlesRotY = 1 * 0.2 ∧
    (tick (fun x => x) 1 demoSession).particlesRotX = 1 * 0.1 :=
  tick_writes_only_y (fun x => x) 1 demoSession 0 (by decide)

/-- A session that has run one tick, so an animation frame id is stored and
a tick is outstanding. -/
def demoTicked : SessionState := tick (fun x => x) 0 demoSession

/-- Claim C3: in every execution of the cleanup with a stored animation
frame id, the outstanding tick is cancelled synchronously before any
graphics resource is released — `cancelTick` appears in the dispose trace
before the first release event — and immediately afterwards both the
scheduler (no pending tick) and the resize controller (listener removed)
are inert. -/
theorem dispose_cancel_before_release (s : SessionState)
    (h : s.animIdRef.isSome = true) :
    DisposeEvent.cancelTick
      ∈ (dispose s).trace.takeWhile (fun e => !e.isRelease) ∧
    (dispose s).state.pendingTick = false ∧
    (dispose s).state.listenerAttached = false := by
  by_cases hm : s.mountPresent = true <;> by_cases hc : s.childAttached = true <;>
    simp [dispose, finishDispose, h, hm, hc, DisposeEvent.isRelease,
      List.takeWhile]

/-- Witness for C3 at the concrete once-ticked session `demoTicked`. -/
theorem dispose_cancel_before_release_witness :
    DisposeEvent.cancelTick
      ∈ (dispose demoTicked).trace.takeWhile (fun e => !e.isRelease) ∧
    (dispose demoTicked).state.pendingTick = false ∧
    (dispose demoTicked).state.listenerAttached = false :=
  dispose_cancel_before_release demoTicked (by simp [demoTicked, tick])

/-- Counterexample to Claim C2 as stated: dispose is not idempotent.  On the
concrete fresh session `demoSession`, the first cleanup succeeds, but the
second cleanup reaches `mountRef.current.removeChild(renderer.domElement)`
with the canvas no longer a child of the mount (the guard only checks that
both nodes exist, not attachment) and raises the DOM `NotFoundError`. -/
theorem dispose_twice_raises_cex :
    (dispose demoSession).error = none ∧
    (dispose (dispose demoSession).state).error = some DomError.notFound := by
  constructor <;> rfl

/-- Claim C2 (amended): while the mount node is still present, a second
`dispose` raises a DOM `NotFoundError` from re-running `removeChild` on the
already-removed canvas — it is not a no-op — and a render after dispose is
not a no-op either: it schedules another animation frame. -/
theorem dispose_not_idempotent (s : SessionState)
    (hm : s.mountPresent = true) (hc : s.childAttached = true) :
    (dispose s).error = none ∧
    (dispose (dispose s).state).error = some DomError.notFound ∧
    ∀ sinq t, (tick sinq t (dispose s).state).pendingTick = true := by
  refine ⟨?_, ?_, ?_⟩ <;> cases hI : s.animIdRef <;>
    simp [dispose, finishDispose, hm, hc, hI, tick]

/-- Witness for the amended C2 at the concrete fresh session
`demoSession`. -/
theorem dispose_not_idempotent_witness :
    (dispose demoSession).error = none ∧
    (dispose (dispose demoSession).state).error = some DomError.notFound ∧
    ∀ sinq t, (tick sinq t (dispose demoSession).state).pendingTick = true :=
  dispose_not_idempotent demoSession rfl rfl

/-- Number of failing ticks among the `n` consecutive tick numbers
`start, start + 1, …, start + n - 1`. -/
def countFails (fails : ℕ → Bool) (start : ℕ) : ℕ → ℕ
  | 0 => 0
  | n + 1 => (if fails start then 1 else 0) + countFails fails (start + 1) n

/-- Claim C1 (amended): because `animate` re-registers itself with
`requestAnimationFrame` before doing any render work, a failure during the
render work of a tick does not stop the loop: from any state with a
callback outstanding, after `n` further host rounds a tick is still
scheduled, exactly `n` further ticks were attempted regardless of failures,
and every failing tick surfaced its error once — one report per failing
tick, not one report overall. -/
theorem scheduler_continues_after_failure (fails : ℕ → Bool) (n : ℕ)
    (s : SchedState) (h : s.pending = true) :
    (runHost fails n s).pending = true ∧
    (runHost fails n s).attempts = s.attempts + n ∧
    (runHost fails n s).errors
      = s.errors + countFails fails (s.attempts + 1) n := by
  induction n generalizing s with
  | zero => exact ⟨h, rfl, by simp [runHost, countFails]⟩
  | succ n ih =>
      have h1 : (hostStep fails s).pending = true := by
        cases hf : fails (s.attempts + 1) <;>
          simp [hostStep, h, animateBody, hf]
      have h2 : (hostStep fails s).attempts = s.attempts + 1 := by
        cases hf : fails (s.attempts + 1) <;>
          simp [hostStep, h, animateBody, hf]
      have h3 : (hostStep fails s).errors
          = s.errors + (if fails (s.attempts + 1) then 1 else 0) := by
        cases hf : fails (s.attempts + 1) <;>
          simp [hostStep, h, animateBody, hf]
      obtain ⟨p, a, e⟩ := ih (hostStep fails s) h1
      have hrun : runHost fails (n + 1) s = runHost fails n (hostStep fails s) := rfl
      refine ⟨by rw [hrun]; exact p, by rw [hrun, a, h2]; omega, ?_⟩
      rw [hrun, e, h3, h2]
      simp only [countFails]
      omega

/-- Witness for the amended C1: the Scenario-D failure injection (render
throws on tick 3), four host rounds after the initial `animate()` call. -/
theorem scheduler_continues_after_failure_witness :
    (runHost (fun k => decide (k = 3)) 4
        (startLoop (fun k => decide (k = 3)))).pending = true ∧
    (runHost (fun k => decide (k = 3)) 4
        (startLoop (fun k => decide (k = 3)))).attempts
      = (startLoop (fun k => decide (k = 3))).attempts + 4 ∧
    (runHost (fun k => decide (k = 3)) 4
        (startLoop (fun k => decide (k = 3)))).errors
      = (startLoop (fun k => decide (k = 3))).errors
        + countFails (fun k => decide (k = 3))
            ((startLoop (fun k => decide (k = 3))).attempts + 1) 4 :=
  scheduler_continues_after_failure (fun k => decide (k = 3)) 4
    (startLoop (fun k => decide (k = 3))) rfl

/-- Counterexample to Claim C1 as stated: with the injected failure on
tick 3 (Scenario D), the render work of tick 3 throws, yet after four host
rounds five ticks have been attempted — ticks 4 and 5 ran after the failing
tick — another tick is scheduled, and one error was surfaced; the scheduler
did not stop. -/
theorem scheduler_failure_cex :
    (fun k => decide (k = 3)) 3 = true ∧
    (runHost (fun k => decide (k = 3)) 4
        (startLoop (fun k => decide (k = 3)))).attempts = 5 ∧
    (runHost (fun k => decide (k = 3)) 4
        (startLoop (fun k => decide (k = 3)))).pending = true ∧
    (runHost (fun k => decide (k = 3)) 4
        (startLoop (fun k => decide (k = 3)))).errors = 1 := by
  decide
